import Mathlib

/-!
Verification of the Boilermaker Toolbox calculation engine.

The TypeScript calculation functions are embedded shallowly:

* JavaScript numbers are modelled as exact rationals (`ℚ`) in the payroll
  engine, whose arithmetic is plain +, -, *, /, min, max and rounding to
  cents, and as real numbers (`ℝ`) in the rigging engine, which uses
  `Math.cos`.  Floating-point rounding error is outside the model.
* `Math.round` rounds half toward positive infinity, i.e. `⌊x + 1/2⌋`.
* Where a JavaScript expression can produce `Infinity`, `-Infinity` or
  `NaN` (division by zero, `Math.max` of an empty spread), the value is
  modelled by the inductive `JNum`, with the IEEE-754 rules for the
  operations the source performs on such values (the model has no
  negative zero: the source never produces one on the paths modelled).
* The `YYYY-MM-DD` pay-date string is modelled by its numeric fields
  (year, month, day); comparing `new Date(s + 'T00:00:00')` against
  `new Date('2025-07-01T00:00:00')` equals lexicographic comparison of
  those fields for well-formed dates.
* Template-literal warning/error messages are modelled by their constant
  text, dropping the interpolated numbers.
-/

namespace Boilermaker

/-! ## types/common.ts -/

inductive Province where
  | AB | BC | MB | NB | NL | NS | NT | NU | ON | PE | QC | SK | YT
deriving DecidableEq

inductive PayFrequency where
  | weekly | biweekly | semimonthly | monthly
deriving DecidableEq

inductive HitchType where
  | vertical | choker | basket
deriving DecidableEq

/-- A `YYYY-MM-DD` pay-date string, modelled by its numeric fields. -/
structure PayDate where
  year : ℕ
  month : ℕ
  day : ℕ
deriving DecidableEq

/-! ## types/constants.ts — TAX_CONSTANTS_2025 and PAY_FREQUENCY_CONFIG -/

def YMPE : ℚ := 71300
def YAMPE : ℚ := 81200
def CPP_RATE : ℚ := 0.0595
def CPP2_RATE : ℚ := 0.04
def CPP_BASIC_EXEMPTION : ℚ := 3500
def EI_MIE : ℚ := 65700
def EI_RATE : ℚ := 0.0164
def FEDERAL_BRACKETS : List ℚ := [57375, 114750, 177882, 253414]
def FEDERAL_RATES_JAN : List ℚ := [0.15, 0.205, 0.26, 0.29, 0.33]
def FEDERAL_RATES_JUL : List ℚ := [0.14, 0.205, 0.26, 0.29, 0.33]
def AB_BRACKETS : List ℚ := [60000, 151234, 181481, 241974, 362961]
def AB_RATES_JAN : List ℚ := [0.10, 0.10, 0.12, 0.13, 0.14, 0.15]
def AB_RATES_JUL : List ℚ := [0.06, 0.10, 0.12, 0.13, 0.14, 0.15]
def FEDERAL_BPA_MAX : ℚ := 16129
def FEDERAL_BPA_MIN : ℚ := 14538
def FEDERAL_BPA_THRESHOLD_LOW : ℚ := 177882
def FEDERAL_BPA_THRESHOLD_HIGH : ℚ := 253414
def CANADA_EMPLOYMENT_AMOUNT : ℚ := 1471
def AB_BPA : ℚ := 22323

/-- `PAY_FREQUENCY_CONFIG[frequency].periods`. -/
def PayFrequency.periods : PayFrequency → ℚ
  | .weekly => 52
  | .biweekly => 26
  | .semimonthly => 24
  | .monthly => 12

/-! ## taxCalculations.ts -/

/-- `round2`: `Math.round(value * 100) / 100`; `Math.round x = ⌊x + 1/2⌋`. -/
def round2 (value : ℚ) : ℚ := (⌊value * 100 + 1 / 2⌋ : ℚ) / 100

/-- `CPPResult`. -/
structure CPPResult where
  cpp1 : ℚ
  cpp2 : ℚ
  pensionableEarnings : ℚ
  cpp2Base : ℚ
deriving DecidableEq

/-- `EIResult`. -/
structure EIResult where
  ei : ℚ
  insurableEarnings : ℚ
deriving DecidableEq

/-- `TaxResult`. -/
structure TaxResult where
  federal : ℚ
  provincial : ℚ
  taxableIncome : ℚ
  annualizedIncome : ℚ
deriving DecidableEq

/-- `calculateCPP(pensionableEarnings, ytdPensionable, periodsPerYear)`. -/
def calculateCPP (pensionableEarnings ytdPensionable periodsPerYear : ℚ) :
    CPPResult :=
  let cppBaseExemptionPerPay := CPP_BASIC_EXEMPTION / periodsPerYear
  let pensionableThisPay := max 0 pensionableEarnings
  -- CPP1: cap using annual room and per-pay exemption
  let cppRoom := max 0 ((YMPE - CPP_BASIC_EXEMPTION) - ytdPensionable)
  let cppPensionableThisPay :=
    max 0 (min (pensionableThisPay - cppBaseExemptionPerPay) cppRoom)
  let cpp1 := round2 (cppPensionableThisPay * CPP_RATE)
  -- CPP2: earnings above YMPE up to YAMPE
  let pensionableAfterThisPay := min (ytdPensionable + pensionableThisPay) YAMPE
  let aboveYMPEBefore := max 0 (min ytdPensionable YAMPE - YMPE)
  let aboveYMPEAfter := max 0 (pensionableAfterThisPay - YMPE)
  let cpp2BaseThisPay := max 0 (aboveYMPEAfter - aboveYMPEBefore)
  let cpp2Room := max 0 ((YAMPE - YMPE) -
    (if ytdPensionable > YMPE then min ytdPensionable YAMPE - YMPE else 0))
  let cpp2Base := min cpp2BaseThisPay cpp2Room
  let cpp2 := round2 (cpp2Base * CPP2_RATE)
  { cpp1 := cpp1
    cpp2 := cpp2
    pensionableEarnings := cppPensionableThisPay
    cpp2Base := cpp2Base }

/-- `calculateEI(insurableEarnings, ytdInsurable, periodsPerYear)`; the
`periodsPerYear` parameter is unused in the source as well. -/
def calculateEI (insurableEarnings ytdInsurable _periodsPerYear : ℚ) :
    EIResult :=
  let insurableThisPay := max 0 insurableEarnings
  let eiRoom := max 0 (EI_MIE - ytdInsurable)
  let eiBase := min insurableThisPay eiRoom
  let ei := round2 (eiBase * EI_RATE)
  { ei := ei
    insurableEarnings := eiBase }

/-- The loop body of `calculateProgressiveTax`: walks thresholds and rates
in lockstep carrying `lastThreshold`; the sentinel `Infinity` bracket is the
`[]`-thresholds case, where `min(annualIncome, Infinity) = annualIncome`.
The loop breaks (recursion stops) when the bracket's taxable amount is ≤ 0. -/
def progressiveTaxGo (annualIncome : ℚ) :
    List ℚ → List ℚ → ℚ → ℚ
  | _, [], _ => 0
  | [], rate :: _, lastThreshold =>
      let taxableInBracket := max 0 (annualIncome - lastThreshold)
      if taxableInBracket ≤ 0 then 0 else taxableInBracket * rate
  | upperThreshold :: thresholds, rate :: rates, lastThreshold =>
      let taxableInBracket :=
        max 0 (min annualIncome upperThreshold - lastThreshold)
      if taxableInBracket ≤ 0 then 0
      else taxableInBracket * rate +
        progressiveTaxGo annualIncome thresholds rates upperThreshold

/-- `calculateProgressiveTax(annualIncome, thresholds, rates)`. -/
def calculateProgressiveTax (annualIncome : ℚ) (thresholds rates : List ℚ) :
    ℚ :=
  progressiveTaxGo annualIncome thresholds rates 0

/-- `calculateFederalBPA(annualIncome)`. -/
def calculateFederalBPA (annualIncome : ℚ) : ℚ :=
  if annualIncome ≤ FEDERAL_BPA_THRESHOLD_LOW then FEDERAL_BPA_MAX
  else if annualIncome ≥ FEDERAL_BPA_THRESHOLD_HIGH then FEDERAL_BPA_MIN
  else
    let phaseOutRatio := (FEDERAL_BPA_THRESHOLD_HIGH - annualIncome) /
      (FEDERAL_BPA_THRESHOLD_HIGH - FEDERAL_BPA_THRESHOLD_LOW)
    FEDERAL_BPA_MIN + (FEDERAL_BPA_MAX - FEDERAL_BPA_MIN) * phaseOutRatio

/-- `payDateObj >= new Date('2025-07-01T00:00:00')`, i.e. the pay date is on
or after 2025-07-01, as lexicographic comparison of (year, month, day). -/
def PayDate.onOrAfterJuly2025 (d : PayDate) : Bool :=
  decide (2025 < d.year ∨
    (d.year = 2025 ∧ (7 < d.month ∨ (d.month = 7 ∧ 1 ≤ d.day))))

/-- `calculateIncomeTax(taxableIncome, payDate, province, periodsPerYear)`. -/
def calculateIncomeTax (taxableIncome : ℚ) (payDate : PayDate)
    (province : Province) (periodsPerYear : ℚ) : TaxResult :=
  let annualizedIncome := taxableIncome * periodsPerYear
  let isJulyOrLater := PayDate.onOrAfterJuly2025 payDate
  -- Federal tax with the mid-year rate change
  let federalRates := if isJulyOrLater then FEDERAL_RATES_JUL
    else FEDERAL_RATES_JAN
  let federalCreditRate := federalRates.headD 0
  let federalBPA := calculateFederalBPA annualizedIncome
  let federalBeforeCredits :=
    calculateProgressiveTax annualizedIncome FEDERAL_BRACKETS federalRates
  let federalCredits :=
    federalCreditRate * (federalBPA + CANADA_EMPLOYMENT_AMOUNT)
  let federalAnnual := max 0 (federalBeforeCredits - federalCredits)
  -- Provincial tax (Alberta only for now)
  let provincialAnnual :=
    if province = Province.AB then
      let albertaRates := if isJulyOrLater then AB_RATES_JUL else AB_RATES_JAN
      let albertaCreditRate := albertaRates.headD 0
      let albertaBeforeCredits :=
        calculateProgressiveTax annualizedIncome AB_BRACKETS albertaRates
      let albertaCredits := albertaCreditRate * AB_BPA
      max 0 (albertaBeforeCredits - albertaCredits)
    else 0
  { federal := round2 (federalAnnual / periodsPerYear)
    provincial := round2 (provincialAnnual / periodsPerYear)
    taxableIncome := taxableIncome
    annualizedIncome := annualizedIncome }

/-- `calculateStatutoryDeductions` result record. -/
structure StatutoryDeductions where
  cpp : CPPResult
  ei : EIResult
  tax : TaxResult
  totalStatutory : ℚ
deriving DecidableEq

/-- `calculateStatutoryDeductions(grossWage, ytdPensionable, ytdInsurable,
payDate, province, periodsPerYear, rrspAtSource)`. -/
def calculateStatutoryDeductions (grossWage ytdPensionable ytdInsurable : ℚ)
    (payDate : PayDate) (province : Province) (periodsPerYear : ℚ)
    (rrspAtSource : ℚ := 0) : StatutoryDeductions :=
  let cppResult := calculateCPP grossWage ytdPensionable periodsPerYear
  let eiResult := calculateEI grossWage ytdInsurable periodsPerYear
  let taxableIncome := max 0 (grossWage - rrspAtSource)
  let taxResult := calculateIncomeTax taxableIncome payDate province
    periodsPerYear
  { cpp := cppResult
    ei := eiResult
    tax := taxResult
    totalStatutory := cppResult.cpp1 + cppResult.cpp2 + eiResult.ei +
      taxResult.federal + taxResult.provincial }

/-! ## types/payroll.ts — input and result records -/

/-- `PayrollInputs`. -/
structure PayrollInputs where
  rate : ℚ
  straightTime : ℚ
  overtimeHalf : ℚ
  overtimeDouble : ℚ
  shiftPremium : ℚ
  travelHours : ℚ
  travelRate : ℚ
  perDiem : ℚ
  days : ℚ
  payDate : PayDate
  frequency : PayFrequency
  province : Province
deriving DecidableEq

/-- `DeductionInputs`. -/
structure DeductionInputs where
  unionDuesPercent : ℚ
  rrspPercent : ℚ
  rrspAtSource : Bool
  otherDeductions : ℚ
deriving DecidableEq

/-- `YTDInputs`. -/
structure YTDInputs where
  pensionableEarnings : ℚ
  cpp1Paid : ℚ
  cpp2Paid : ℚ
  insurableEarnings : ℚ
  eiPaid : ℚ
deriving DecidableEq

/-- `GrossPayBreakdown`. -/
structure GrossPayBreakdown where
  straightTimePay : ℚ
  overtimeHalfPay : ℚ
  overtimeDoublePay : ℚ
  shiftPremiumPay : ℚ
  travelPay : ℚ
  wage : ℚ
  allowances : ℚ
  total : ℚ
deriving DecidableEq

/-- `DeductionBreakdown`. -/
structure DeductionBreakdown where
  union : ℚ
  rrsp : ℚ
  other : ℚ
  cpp1 : ℚ
  cpp2 : ℚ
  ei : ℚ
  federal : ℚ
  provincial : ℚ
  total : ℚ
deriving DecidableEq

/-- `PayrollResults`. -/
structure PayrollResults where
  gross : GrossPayBreakdown
  deductions : DeductionBreakdown
  net : ℚ
deriving DecidableEq

/-! ## payrollCalculations.ts -/

/-- `calculateGrossPay(inputs)`. -/
def calculateGrossPay (inputs : PayrollInputs) : GrossPayBreakdown :=
  let straightTimePay :=
    round2 (inputs.straightTime * (inputs.rate + inputs.shiftPremium))
  let overtimeHalfPay :=
    round2 (inputs.overtimeHalf * (inputs.rate * 1.5 + inputs.shiftPremium))
  let overtimeDoublePay :=
    round2 (inputs.overtimeDouble * (inputs.rate * 2.0 + inputs.shiftPremium))
  let shiftPremiumPay :=
    round2 ((inputs.straightTime + inputs.overtimeHalf +
      inputs.overtimeDouble) * inputs.shiftPremium)
  let travelPay := round2 (inputs.travelHours * inputs.travelRate)
  let allowances := round2 (inputs.perDiem * inputs.days)
  let wage :=
    round2 (straightTimePay + overtimeHalfPay + overtimeDoublePay + travelPay)
  let total := round2 (wage + allowances)
  { straightTimePay := straightTimePay
    overtimeHalfPay := overtimeHalfPay
    overtimeDoublePay := overtimeDoublePay
    shiftPremiumPay := shiftPremiumPay
    travelPay := travelPay
    wage := wage
    allowances := allowances
    total := total }

/-- `calculateVoluntaryDeductions` result record. -/
structure VoluntaryDeductions where
  union : ℚ
  rrsp : ℚ
  other : ℚ
  totalVoluntary : ℚ
deriving DecidableEq

/-- `calculateVoluntaryDeductions(grossWage, deductionInputs)`. -/
def calculateVoluntaryDeductions (grossWage : ℚ)
    (deductionInputs : DeductionInputs) : VoluntaryDeductions :=
  let union := round2 ((grossWage * deductionInputs.unionDuesPercent) / 100)
  let rrsp := round2 ((grossWage * deductionInputs.rrspPercent) / 100)
  let other := round2 deductionInputs.otherDeductions
  { union := union
    rrsp := rrsp
    other := other
    totalVoluntary := round2 (union + rrsp + other) }

/-- `calculateDeductions(grossWage, deductionInputs, ytdInputs, payDate,
province, frequency, rrspAtSource)`. -/
def calculateDeductions (grossWage : ℚ) (deductionInputs : DeductionInputs)
    (ytdInputs : YTDInputs) (payDate : PayDate) (province : Province)
    (frequency : PayFrequency) (rrspAtSource : Bool := true) :
    DeductionBreakdown :=
  let periodsPerYear := frequency.periods
  let voluntary := calculateVoluntaryDeductions grossWage deductionInputs
  let rrspAtSourceAmount := if rrspAtSource then voluntary.rrsp else 0
  let statutory := calculateStatutoryDeductions grossWage
    ytdInputs.pensionableEarnings ytdInputs.insurableEarnings payDate
    province periodsPerYear rrspAtSourceAmount
  let total := round2 (voluntary.union + voluntary.rrsp + voluntary.other +
    statutory.cpp.cpp1 + statutory.cpp.cpp2 + statutory.ei.ei +
    statutory.tax.federal + statutory.tax.provincial)
  { union := voluntary.union
    rrsp := voluntary.rrsp
    other := voluntary.other
    cpp1 := statutory.cpp.cpp1
    cpp2 := statutory.cpp.cpp2
    ei := statutory.ei.ei
    federal := statutory.tax.federal
    provincial := statutory.tax.provincial
    total := total }

/-- `calculateNetPay(grossTotal, totalDeductions)`. -/
def calculateNetPay (grossTotal totalDeductions : ℚ) : ℚ :=
  round2 (grossTotal - totalDeductions)

/-- `calculatePayroll(payrollInputs, deductionInputs, ytdInputs)`. -/
def calculatePayroll (payrollInputs : PayrollInputs)
    (deductionInputs : DeductionInputs) (ytdInputs : YTDInputs) :
    PayrollResults :=
  let gross := calculateGrossPay payrollInputs
  let deductions := calculateDeductions gross.wage deductionInputs ytdInputs
    payrollInputs.payDate payrollInputs.province payrollInputs.frequency
    deductionInputs.rrspAtSource
  let net := calculateNetPay gross.total deductions.total
  { gross := gross
    deductions := deductions
    net := net }

/-- `validatePayrollInputs` result record. -/
structure PayrollValidation where
  isValid : Bool
  errors : List String
  warnings : List String
deriving DecidableEq

/-- `validatePayrollInputs(payrollInputs, deductionInputs, ytdInputs)`:
each `errors.push`/`warnings.push` guarded by an `if` is a conditional
singleton, concatenated in source order; `isValid` is `errors.length === 0`. -/
def validatePayrollInputs (payrollInputs : PayrollInputs)
    (deductionInputs : DeductionInputs) (ytdInputs : YTDInputs) :
    PayrollValidation :=
  let errors : List String :=
    (if payrollInputs.rate ≤ 0 then
      ["Base rate must be greater than 0"] else []) ++
    (if payrollInputs.straightTime < 0 then
      ["Straight time hours cannot be negative"] else []) ++
    (if payrollInputs.overtimeHalf < 0 then
      ["Overtime hours cannot be negative"] else []) ++
    (if payrollInputs.overtimeDouble < 0 then
      ["Double-time hours cannot be negative"] else []) ++
    (if deductionInputs.unionDuesPercent < 0 ∨
        deductionInputs.unionDuesPercent > 100 then
      ["Union dues percentage must be between 0 and 100"] else []) ++
    (if deductionInputs.rrspPercent < 0 ∨
        deductionInputs.rrspPercent > 100 then
      ["RRSP percentage must be between 0 and 100"] else []) ++
    (if ytdInputs.pensionableEarnings < 0 then
      ["YTD pensionable earnings cannot be negative"] else []) ++
    (if ytdInputs.insurableEarnings < 0 then
      ["YTD insurable earnings cannot be negative"] else [])
  let totalHours := payrollInputs.straightTime + payrollInputs.overtimeHalf +
    payrollInputs.overtimeDouble
  let warnings : List String :=
    (if totalHours > 84 then
      ["Total hours exceed 84 per week - verify compliance with labour standards"]
      else []) ++
    (if deductionInputs.rrspPercent > 18 then
      ["RRSP contribution exceeds typical 18 percent limit"] else [])
  { isValid := errors.length == 0
    errors := errors
    warnings := warnings }

/-! ## The JavaScript number values reachable in riggingCalculations.ts

A JavaScript arithmetic result is either a finite number, `Infinity`,
`-Infinity`, or `NaN`.  The rigging code can produce the non-finite values
by dividing by zero and by spreading an empty array into `Math.max` /
`Math.min`.  `JNum` models these values over exact reals (no negative
zero: none of the modelled paths produces one), with the IEEE-754 rules
for the operations the source performs. -/

inductive JNum where
  | fin : ℝ → JNum
  | posInf : JNum
  | negInf : JNum
  | nan : JNum

namespace JNum

/-- JavaScript subtraction on `JNum`. -/
def sub : JNum → JNum → JNum
  | fin a, fin b => fin (a - b)
  | fin _, posInf => negInf
  | fin _, negInf => posInf
  | posInf, fin _ => posInf
  | posInf, posInf => nan
  | posInf, negInf => posInf
  | negInf, fin _ => negInf
  | negInf, posInf => negInf
  | negInf, negInf => nan
  | nan, _ => nan
  | _, nan => nan

/-- JavaScript multiplication on `JNum`. -/
noncomputable def mul : JNum → JNum → JNum
  | fin a, fin b => fin (a * b)
  | fin a, posInf => if 0 < a then posInf else if a < 0 then negInf else nan
  | fin a, negInf => if 0 < a then negInf else if a < 0 then posInf else nan
  | posInf, fin b => if 0 < b then posInf else if b < 0 then negInf else nan
  | negInf, fin b => if 0 < b then negInf else if b < 0 then posInf else nan
  | posInf, posInf => posInf
  | posInf, negInf => negInf
  | negInf, posInf => negInf
  | negInf, negInf => posInf
  | nan, _ => nan
  | _, nan => nan

/-- JavaScript division on `JNum` (zero is `+0`: a positive value divided
by zero is `Infinity`, a negative one `-Infinity`, and `0/0` is `NaN`). -/
noncomputable def div : JNum → JNum → JNum
  | fin a, fin b =>
      if b = 0 then (if 0 < a then posInf else if a < 0 then negInf else nan)
      else fin (a / b)
  | fin _, posInf => fin 0
  | fin _, negInf => fin 0
  | posInf, fin b => if b < 0 then negInf else posInf
  | negInf, fin b => if b < 0 then posInf else negInf
  | posInf, posInf => nan
  | posInf, negInf => nan
  | negInf, posInf => nan
  | negInf, negInf => nan
  | nan, _ => nan
  | _, nan => nan

/-- JavaScript `a >= c` for a finite right-hand side (`NaN >= c` is false). -/
def jge : JNum → ℝ → Prop
  | fin x, c => c ≤ x
  | posInf, _ => True
  | negInf, _ => False
  | nan, _ => False

/-- JavaScript `a <= c` for a finite right-hand side (`NaN <= c` is false). -/
def jle : JNum → ℝ → Prop
  | fin x, c => x ≤ c
  | posInf, _ => False
  | negInf, _ => True
  | nan, _ => False

/-- JavaScript `a < c` for a finite right-hand side (`NaN < c` is false). -/
def jlt : JNum → ℝ → Prop
  | fin x, c => x < c
  | posInf, _ => False
  | negInf, _ => True
  | nan, _ => False

noncomputable instance (a : JNum) (c : ℝ) : Decidable (a.jge c) :=
  Classical.dec _

noncomputable instance (a : JNum) (c : ℝ) : Decidable (a.jle c) :=
  Classical.dec _

noncomputable instance (a : JNum) (c : ℝ) : Decidable (a.jlt c) :=
  Classical.dec _

end JNum

/-- `Math.max(...values)`: `-Infinity` on an empty spread. -/
def jsMax : List ℝ → JNum
  | [] => .negInf
  | x :: xs => .fin (xs.foldl max x)

/-- `Math.min(...values)`: `Infinity` on an empty spread. -/
def jsMin : List ℝ → JNum
  | [] => .posInf
  | x :: xs => .fin (xs.foldl min x)

/-! ## types/constants.ts — RIGGING_CONSTANTS -/

def GRAVITY : ℝ := 9.80665
def DESIGN_FACTOR : ℝ := 1.25
def MINIMUM_SAFETY_MARGIN : ℝ := 25
def MIN_ANGLE : ℝ := 10
def MAX_ANGLE : ℝ := 150
def MAX_LEGS : ℕ := 4

/-- `RIGGING_CONSTANTS.HITCH_FACTORS`. -/
def HITCH_FACTORS : HitchType → ℝ
  | .vertical => 1.0
  | .choker => 0.75
  | .basket => 2.0

/-! ## types/rigging.ts — input and result records -/

/-- `RiggingInputs` (`legs` is used as an array length and compared with
`=== 2`, so it is modelled as a natural number). -/
structure RiggingInputs where
  hitchType : HitchType
  weight : ℝ
  legs : ℕ
  angle : ℝ
  cogOffset : ℝ
  spacing : ℝ
  slingWLL : ℝ

/-- `LoadDistribution`. -/
structure LoadDistribution where
  legLoads : List ℝ
  maxTension : JNum
  minTension : JNum
  isBalanced : Prop
  imbalanceRatio : JNum

/-- `AngleFactorResult`. -/
structure AngleFactorResult where
  angleFactor : ℝ
  legAngle : ℝ
  efficiency : ℝ

/-- `SafetyAnalysis`. -/
structure SafetyAnalysis where
  isWLLAdequate : Prop
  safetyMargin : JNum
  minRequiredWLL : JNum
  recommendedWLL : JNum
  warnings : List String
  recommendations : List String

/-- `validateRiggingGeometry` result record. -/
structure GeometryValidation where
  isValid : Bool
  warnings : List String

/-- `RiggingResults`. -/
structure RiggingResults where
  angleFactor : AngleFactorResult
  loadDistribution : LoadDistribution
  tensionPerLeg : JNum
  forcePerLeg : JNum
  safety : SafetyAnalysis
  maxTensionKN : JNum
  minRequiredWLL : JNum
  safetyCheck : Prop

/-! ## riggingCalculations.ts -/

/-- `calculateAngleFactor(includedAngle)`.  `Math.cos` never returns an
exact zero for a representable argument, so the source division is always
by a nonzero number; the model uses real division (which only differs at
the unreachable `cos = 0` points). -/
noncomputable def calculateAngleFactor (includedAngle : ℝ) :
    AngleFactorResult :=
  let legAngleRadians := (includedAngle / 2) * (Real.pi / 180)
  let legAngleDegrees := includedAngle / 2
  let angleFactor := 1 / Real.cos legAngleRadians
  let efficiency := 1 / angleFactor
  { angleFactor := angleFactor
    legAngle := legAngleDegrees
    efficiency := efficiency }

/-- `calculateLoadDistribution(weight, legs, cogOffset, spacing)`.  The
source fills an array of length `legs` with `1 / legs` and overwrites the
two entries when `legs === 2 && spacing > 0 && Math.abs(cogOffset) > 1`. -/
noncomputable def calculateLoadDistribution (weight : ℝ) (legs : ℕ)
    (cogOffset spacing : ℝ) : LoadDistribution :=
  let totalForceN := weight * GRAVITY
  let legLoads : List ℝ :=
    if legs = 2 ∧ 0 < spacing ∧ 1 < |cogOffset| then
      let distanceToLegA := spacing / 2 + cogOffset
      let distanceToLegB := spacing / 2 - cogOffset
      let totalDistance := distanceToLegA + distanceToLegB
      [distanceToLegB / totalDistance, distanceToLegA / totalDistance]
    else List.replicate legs (1 / (legs : ℝ))
  let legForcesN := legLoads.map (fun share => totalForceN * share)
  let maxTension := jsMax legForcesN
  let minTension := jsMin legForcesN
  let ratio := JNum.div maxTension minTension
  { legLoads := legLoads
    maxTension := maxTension
    minTension := minTension
    isBalanced := JNum.jle ratio 1.1
    imbalanceRatio := ratio }

/-- `calculateSafetyFactors(maxTensionN, slingWLL, hitchType)`. -/
noncomputable def calculateSafetyFactors (maxTensionN : JNum)
    (slingWLL : ℝ) (hitchType : HitchType) : SafetyAnalysis :=
  let hitchFactor := HITCH_FACTORS hitchType
  let effectiveWLLkg := slingWLL * hitchFactor
  let effectiveWLLN := effectiveWLLkg * 9.80665
  let safetyMargin :=
    JNum.mul (JNum.div (JNum.sub (.fin effectiveWLLN) maxTensionN)
      maxTensionN) (.fin 100)
  let isWLLAdequate := JNum.jge safetyMargin MINIMUM_SAFETY_MARGIN
  let minRequiredWLLN := JNum.mul maxTensionN (.fin DESIGN_FACTOR)
  let minRequiredWLL := JNum.div minRequiredWLLN (.fin 9.80665)
  let recommendedWLL := JNum.mul minRequiredWLL (.fin 1.1)
  let warnings : List String :=
    (if ¬ isWLLAdequate then
      ["Insufficient sling capacity. Safety margin low"] else []) ++
    (if JNum.jlt safetyMargin 50 then
      ["Low safety margin - consider higher capacity slings"] else [])
  let recommendations : List String :=
    (if ¬ isWLLAdequate then
      ["Use slings with minimum required WLL"] else []) ++
    (if hitchType = .choker then
      ["Choker hitch reduces capacity to 75% of vertical rating"] else []) ++
    (if hitchType = .basket then
      ["Basket hitch doubles capacity but requires proper load support"]
      else [])
  { isWLLAdequate := isWLLAdequate
    safetyMargin := safetyMargin
    minRequiredWLL := minRequiredWLL
    recommendedWLL := recommendedWLL
    warnings := warnings
    recommendations := recommendations }

/-- `validateRiggingGeometry(inputs)`: `isValid` is the constant `true`;
warnings accumulate in source order. -/
noncomputable def validateRiggingGeometry (inputs : RiggingInputs) :
    GeometryValidation :=
  let warnings : List String :=
    (if inputs.angle < MIN_ANGLE then
      ["Included angle too small"] else []) ++
    (if inputs.angle > MAX_ANGLE then
      ["Included angle too large"] else []) ++
    (if inputs.legs > MAX_LEGS then
      ["Too many legs"] else []) ++
    (if inputs.weight ≤ 0 then
      ["Load weight must be greater than zero"] else []) ++
    (if inputs.slingWLL ≤ 0 then
      ["Sling WLL must be greater than zero"] else []) ++
    (if inputs.angle > 120 then
      ["Wide angles significantly increase sling tension - consider reducing angle"]
      else []) ++
    (if |inputs.cogOffset| > inputs.spacing / 2 then
      ["CoG offset exceeds half the pick spacing - load may be unstable"]
      else [])
  { isValid := true
    warnings := warnings }

/-- `calculateRiggingAnalysis(inputs)`. -/
noncomputable def calculateRiggingAnalysis (inputs : RiggingInputs) :
    RiggingResults :=
  let geometryValidation := validateRiggingGeometry inputs
  let angleFactor := calculateAngleFactor inputs.angle
  let loadDistribution := calculateLoadDistribution inputs.weight inputs.legs
    inputs.cogOffset inputs.spacing
  let maxTensionWithAngle :=
    JNum.mul loadDistribution.maxTension (.fin angleFactor.angleFactor)
  let safety := calculateSafetyFactors maxTensionWithAngle inputs.slingWLL
    inputs.hitchType
  let safety :=
    { safety with warnings := safety.warnings ++ geometryValidation.warnings }
  let tensionPerLeg := JNum.div maxTensionWithAngle (.fin 1000)
  let forcePerLeg := JNum.div maxTensionWithAngle (.fin 1000)
  let maxTensionKN := JNum.div maxTensionWithAngle (.fin 1000)
  let safetyCheck := safety.isWLLAdequate ∧ geometryValidation.isValid = true
  { angleFactor := angleFactor
    loadDistribution := loadDistribution
    tensionPerLeg := tensionPerLeg
    forcePerLeg := forcePerLeg
    safety := safety
    maxTensionKN := maxTensionKN
    minRequiredWLL := safety.minRequiredWLL
    safetyCheck := safetyCheck }

/-! ## Claims -/

/-- Claim C1, counterexample: a negative year-to-date insurable amount is
NOT equivalent to a year-to-date of 0.  With per-period insurable earnings
65703 (above the 65700 MIE), `ytdInsurable = -5` enlarges the remaining EI
room to 65705, so the premium is `round2(65703 × 0.0164) = 1077.53`
instead of `round2(65700 × 0.0164) = 1077.48`. -/
theorem C1_counterexample :
    ¬ ((calculateEI 65703 (-5) 52).ei = (calculateEI 65703 0 52).ei) := by
  norm_num [calculateEI, EI_MIE, EI_RATE, round2, max_def, min_def]

/-- Claim C1, amended: for periodsPerYear > 0 and negative year-to-date
accumulators, `calculateCPP` and `calculateEI` return the same
contributions as with the year-to-date at 0, provided this period's
pensionable earnings are at most YMPE − basic exemption ($67,800) and its
insurable earnings at most the MIE ($65,700); beyond those per-period
amounts the negative year-to-date enlarges the annual room instead of
being clamped. -/
theorem C1_neg_ytd_equiv (p ytdP ins ytdI n : ℚ) (hn : 0 < n)
    (hP : ytdP < 0) (hI : ytdI < 0) (hp : p ≤ 67800) (hi : ins ≤ 65700) :
    calculateCPP p ytdP n = calculateCPP p 0 n ∧
    calculateEI ins ytdI n = calculateEI ins 0 n := by
  constructor
  · have hmaxp : max 0 p ≤ 67800 := max_le (by norm_num) hp
    have hex : 0 < 3500 / n := by positivity
    have eBase : min (max 0 p - 3500 / n) (max 0 ((71300:ℚ) - 3500 - ytdP))
        = min (max 0 p - 3500 / n) (max 0 ((71300:ℚ) - 3500 - 0)) := by
      rw [max_eq_right (by linarith : (0:ℚ) ≤ 71300 - 3500 - ytdP),
        max_eq_right (by norm_num : (0:ℚ) ≤ 71300 - 3500 - 0),
        min_eq_left (by linarith), min_eq_left (by linarith)]
    have eAfterP : max 0 (min (ytdP + max 0 p) 81200 - 71300) = (0:ℚ) := by
      rw [min_eq_left (by linarith)]
      exact max_eq_left (by linarith)
    have eAfter0 : max 0 (min (0 + max 0 p) 81200 - 71300) = (0:ℚ) := by
      rw [min_eq_left (by linarith)]
      exact max_eq_left (by linarith)
    have eBefP : max 0 (min ytdP 81200 - 71300) = (0:ℚ) := by
      rw [min_eq_left (by linarith)]
      exact max_eq_left (by linarith)
    have eBef0 : max 0 (min (0:ℚ) 81200 - 71300) = (0:ℚ) := by
      rw [min_eq_left (by norm_num)]
      exact max_eq_left (by norm_num)
    have eIfP : (if ytdP > (71300:ℚ) then min ytdP 81200 - 71300 else 0)
        = (0:ℚ) := if_neg (by simp; linarith)
    have eIf0 : (if (0:ℚ) > (71300:ℚ) then min (0:ℚ) 81200 - 71300 else 0)
        = (0:ℚ) := if_neg (by norm_num)
    simp only [calculateCPP, YMPE, YAMPE, CPP_BASIC_EXEMPTION]
    rw [eBase, eAfterP, eAfter0, eBefP, eBef0, eIfP, eIf0]
  · have hmaxi : max 0 ins ≤ 65700 := max_le (by norm_num) hi
    have eEI : min (max 0 ins) (max 0 ((65700:ℚ) - ytdI))
        = min (max 0 ins) (max 0 ((65700:ℚ) - 0)) := by
      rw [max_eq_right (by linarith : (0:ℚ) ≤ 65700 - ytdI),
        max_eq_right (by norm_num : (0:ℚ) ≤ 65700 - 0),
        min_eq_left (by linarith), min_eq_left (by linarith)]
    simp only [calculateEI, EI_MIE]
    rw [eEI]

/-- Claim C1, witness: the amended theorem at earnings 1000,
year-to-date −5, 52 periods per year. -/
theorem C1_witness :
    (0:ℚ) < 52 ∧ (-5:ℚ) < 0 ∧ (1000:ℚ) ≤ 67800 ∧ (1000:ℚ) ≤ 65700 ∧
    (calculateCPP 1000 (-5) 52 = calculateCPP 1000 0 52 ∧
      calculateEI 1000 (-5) 52 = calculateEI 1000 0 52) :=
  ⟨by norm_num, by norm_num, by norm_num, by norm_num,
    C1_neg_ytd_equiv 1000 (-5) 1000 (-5) 52 (by norm_num) (by norm_num)
      (by norm_num) (by norm_num) (by norm_num)⟩

/-- Claim C2: `validateRiggingGeometry` always returns `isValid = true`,
so the `safetyCheck` field of `calculateRiggingAnalysis` is equivalent to
the `isWLLAdequate` field of its own safety analysis. -/
theorem C2_geometry_always_valid (inputs : RiggingInputs) :
    (validateRiggingGeometry inputs).isValid = true ∧
    ((calculateRiggingAnalysis inputs).safetyCheck ↔
      ((calculateRiggingAnalysis inputs).safety).isWLLAdequate) := by
  constructor
  · rfl
  · simp [calculateRiggingAnalysis, validateRiggingGeometry]

/-- Claim C3, counterexample: with `slingWLL = 0` (an allowed value under
the claim's "for every slingWLL") and zero tension, the JavaScript
computation is `(0 − 0)/0 × 100 = NaN`, not `+∞`, and `NaN >= 25` is
false, so the sling is NOT reported adequate. -/
theorem C3_counterexample :
    ¬ ((calculateSafetyFactors (.fin 0) 0 .vertical).safetyMargin
        = .posInf ∧
      (calculateSafetyFactors (.fin 0) 0 .vertical).isWLLAdequate) := by
  norm_num [calculateSafetyFactors, HITCH_FACTORS, MINIMUM_SAFETY_MARGIN,
    JNum.sub, JNum.div, JNum.mul, JNum.jge]

/-- Claim C3, amended: for every positive `slingWLL` and every hitch type,
`calculateSafetyFactors` at zero tension returns `safetyMargin = +∞` and
reports the WLL adequate (at `slingWLL = 0` the margin is `NaN` and the
WLL is reported inadequate). -/
theorem C3_zero_tension_adequate (slingWLL : ℝ) (h : HitchType)
    (hW : 0 < slingWLL) :
    (calculateSafetyFactors (.fin 0) slingWLL h).safetyMargin = .posInf ∧
    (calculateSafetyFactors (.fin 0) slingWLL h).isWLLAdequate := by
  have hf : 0 < HITCH_FACTORS h := by cases h <;> norm_num [HITCH_FACTORS]
  have he : (0:ℝ) < slingWLL * HITCH_FACTORS h * 9.80665 - 0 := by
    have := mul_pos (mul_pos hW hf) (by norm_num : (0:ℝ) < 9.80665)
    linarith
  have hdiv : JNum.div
      (JNum.fin (slingWLL * HITCH_FACTORS h * 9.80665 - 0)) (JNum.fin 0)
      = JNum.posInf := by
    simp only [JNum.div]
    rw [if_pos trivial, if_pos he]
  have hmul : JNum.mul JNum.posInf (JNum.fin 100) = JNum.posInf := by
    simp only [JNum.mul]
    rw [if_pos (by norm_num : (0:ℝ) < 100)]
  simp only [calculateSafetyFactors, JNum.sub, MINIMUM_SAFETY_MARGIN]
  rw [hdiv, hmul]
  exact ⟨rfl, by simp [JNum.jge]⟩

/-- Claim C3, witness: the amended theorem at `slingWLL = 100` with a
vertical hitch. -/
theorem C3_witness :
    (0:ℝ) < 100 ∧
    ((calculateSafetyFactors (.fin 0) 100 .vertical).safetyMargin
        = .posInf ∧
      (calculateSafetyFactors (.fin 0) 100 .vertical).isWLLAdequate) :=
  ⟨by norm_num, C3_zero_tension_adequate 100 .vertical (by norm_num)⟩

/-- Claim C4, counterexample: at `includedAngle = 360` the leg angle is
180° = π radians, `cos π = −1`, and the angle factor is `1/(−1) = −1`,
which is not ≥ 1. -/
theorem C4_counterexample :
    ¬ (1 ≤ (calculateAngleFactor 360).angleFactor) := by
  simp only [calculateAngleFactor]
  have h : ((360:ℝ) / 2) * (Real.pi / 180) = Real.pi := by ring
  rw [h, Real.cos_pi]
  norm_num

/-- Claim C4, amended: for every included angle strictly between −180° and
180° (the claim's "every includedAngle" fails once the leg angle leaves
(−90°, 90°) and its cosine turns non-positive), `calculateAngleFactor`
returns `angleFactor ≥ 1`, while the returned `legAngle = includedAngle/2`
may be negative. -/
theorem C4_angle_factor_ge_one (θ : ℝ) (h1 : -180 < θ) (h2 : θ < 180) :
    1 ≤ (calculateAngleFactor θ).angleFactor ∧
    (calculateAngleFactor θ).legAngle = θ / 2 := by
  have hpi := Real.pi_pos
  have hx1 : -(Real.pi / 2) < θ / 2 * (Real.pi / 180) := by
    nlinarith [mul_pos (by linarith : (0:ℝ) < θ + 180) hpi]
  have hx2 : θ / 2 * (Real.pi / 180) < Real.pi / 2 := by
    nlinarith [mul_pos (by linarith : (0:ℝ) < 180 - θ) hpi]
  have hcos : 0 < Real.cos (θ / 2 * (Real.pi / 180)) :=
    Real.cos_pos_of_mem_Ioo ⟨hx1, hx2⟩
  refine ⟨?_, rfl⟩
  show 1 ≤ 1 / Real.cos (θ / 2 * (Real.pi / 180))
  rw [le_div_iff₀ hcos, one_mul]
  exact Real.cos_le_one _

/-- Claim C4, witness: the amended theorem at `includedAngle = −60`, whose
reported leg angle −30 is negative. -/
theorem C4_witness :
    (-180:ℝ) < -60 ∧ (-60:ℝ) < 180 ∧
    (1 ≤ (calculateAngleFactor (-60)).angleFactor ∧
      (calculateAngleFactor (-60)).legAngle = (-60) / 2) :=
  ⟨by norm_num, by norm_num,
    C4_angle_factor_ge_one (-60) (by norm_num) (by norm_num)⟩

/-- Claim C5: with weekly taxable income 3000 in Alberta, the 2025-07-15
pay date yields strictly smaller federal and provincial withholding than
2025-01-15 (the July tables cut the lowest bracket's rate, which also
prices the credits). -/
theorem C5_midyear_rate_cut :
    (calculateIncomeTax 3000 ⟨2025, 7, 15⟩ .AB 52).federal <
      (calculateIncomeTax 3000 ⟨2025, 1, 15⟩ .AB 52).federal ∧
    (calculateIncomeTax 3000 ⟨2025, 7, 15⟩ .AB 52).provincial <
      (calculateIncomeTax 3000 ⟨2025, 1, 15⟩ .AB 52).provincial := by
  constructor <;>
    norm_num [calculateIncomeTax, PayDate.onOrAfterJuly2025,
      calculateFederalBPA, calculateProgressiveTax, progressiveTaxGo,
      FEDERAL_BRACKETS, FEDERAL_RATES_JAN, FEDERAL_RATES_JUL, AB_BRACKETS,
      AB_RATES_JAN, AB_RATES_JUL, FEDERAL_BPA_MAX, FEDERAL_BPA_MIN,
      FEDERAL_BPA_THRESHOLD_LOW, FEDERAL_BPA_THRESHOLD_HIGH,
      CANADA_EMPLOYMENT_AMOUNT, AB_BPA, round2, max_def, min_def]

/-- Claim C6: once the year-to-date pensionable earnings reach
YMPE − basic exemption = 71300 − 3500 = 67800, `calculateCPP` returns
`cpp1 = 0` for any per-period earnings. -/
theorem C6_cpp_ceiling (p ytd n : ℚ) (_hn : 0 < n) (h : 67800 ≤ ytd) :
    (calculateCPP p ytd n).cpp1 = 0 := by
  simp only [calculateCPP, YMPE, CPP_BASIC_EXEMPTION, CPP_RATE]
  have h1 : max 0 ((71300:ℚ) - 3500 - ytd) = 0 := max_eq_left (by linarith)
  rw [h1]
  have h2 : max 0 (min (max 0 p - 3500 / n) 0) = 0 :=
    max_eq_left (min_le_right _ _)
  rw [h2]
  norm_num [round2]

/-- Claim C6, witness: earnings 5000 with year-to-date exactly 67800 and
52 periods per year yield `cpp1 = 0`. -/
theorem C6_witness :
    (0:ℚ) < 52 ∧ (67800:ℚ) ≤ 67800 ∧ (calculateCPP 5000 67800 52).cpp1 = 0 :=
  ⟨by norm_num, le_refl _, C6_cpp_ceiling 5000 67800 52 (by norm_num)
    (le_refl _)⟩

/-- Claim C7, counterexample: at `legs = 0` the leg-loads array is empty
and its shares sum to 0, not 1 ± 1e-6. -/
theorem C7_counterexample :
    ¬ (|((calculateLoadDistribution 1000 0 0 2000).legLoads).sum - 1|
        ≤ 1 / 1000000) := by
  simp only [calculateLoadDistribution]
  rw [if_neg (by norm_num)]
  norm_num

/-- Claim C7, amended: for every weight, CoG offset, spacing and at least
one leg (the claim's "every leg count" fails at `legs = 0`, whose empty
array sums to 0), the load shares of `calculateLoadDistribution` sum to
1 within 1e-6 (in fact exactly). -/
theorem C7_conservation (w c s : ℝ) (legs : ℕ) (h : 1 ≤ legs) :
    |((calculateLoadDistribution w legs c s).legLoads).sum - 1|
      ≤ 1 / 1000000 := by
  have hsum : ((calculateLoadDistribution w legs c s).legLoads).sum = 1 := by
    simp only [calculateLoadDistribution]
    split_ifs with hcond
    · obtain ⟨h2, hs, hc⟩ := hcond
      simp only [List.sum_cons, List.sum_nil, add_zero]
      have ht : (s / 2 + c) + (s / 2 - c) = s := by ring
      rw [ht, div_add_div_same]
      have hnum : (s / 2 - c) + (s / 2 + c) = s := by ring
      rw [hnum, div_self (ne_of_gt hs)]
    · rw [List.sum_replicate, nsmul_eq_mul, mul_one_div,
        div_self (Nat.cast_ne_zero.mpr (by omega) : (legs:ℝ) ≠ 0)]
  rw [hsum]
  norm_num

/-- Claim C7, witness: the amended theorem for the two-leg balanced lift
`calculateLoadDistribution 1000 2 0 2000`. -/
theorem C7_witness :
    1 ≤ 2 ∧
    |((calculateLoadDistribution 1000 2 0 2000).legLoads).sum - 1|
      ≤ 1 / 1000000 :=
  ⟨by norm_num, C7_conservation 1000 0 2000 2 (by norm_num)⟩

/-- Claim C8, counterexample: with `travelHours = −1` (and all other
fields valid), `validatePayrollInputs` still reports `isValid = true`,
but the claimed right-hand side — rate > 0, every hours field ≥ 0,
percentages within [0, 100], every year-to-date accumulator ≥ 0 — is
false, refuting the claimed equivalence. -/
theorem C8_counterexample :
    ¬ (((validatePayrollInputs
          { rate := 60, straightTime := 40, overtimeHalf := 0,
            overtimeDouble := 0, shiftPremium := 0, travelHours := -1,
            travelRate := 0, perDiem := 0, days := 5,
            payDate := ⟨2025, 1, 15⟩, frequency := .weekly,
            province := .AB }
          { unionDuesPercent := 3, rrspPercent := 0, rrspAtSource := true,
            otherDeductions := 0 }
          { pensionableEarnings := 0, cpp1Paid := 0, cpp2Paid := 0,
            insurableEarnings := 0, eiPaid := 0 }).isValid = true) ↔
      ((0:ℚ) < 60 ∧ (0:ℚ) ≤ 40 ∧ (0:ℚ) ≤ 0 ∧ (0:ℚ) ≤ 0 ∧ (0:ℚ) ≤ -1 ∧
        (0:ℚ) ≤ 3 ∧ (3:ℚ) ≤ 100 ∧ (0:ℚ) ≤ 0 ∧ (0:ℚ) ≤ 100 ∧
        (0:ℚ) ≤ 0 ∧ (0:ℚ) ≤ 0 ∧ (0:ℚ) ≤ 0 ∧ (0:ℚ) ≤ 0 ∧ (0:ℚ) ≤ 0)) := by
  norm_num [validatePayrollInputs]

/-- Claim C8, amended: `validatePayrollInputs` returns `isValid = true`
iff rate > 0, the straight-time and both overtime hour fields are ≥ 0,
the union-dues and RRSP percentages lie in [0, 100], and the year-to-date
pensionable and insurable earnings are ≥ 0 — `travelHours` and the
year-to-date contribution accumulators (cpp1Paid, cpp2Paid, eiPaid) are
not validated, and the two warnings never affect `isValid`. -/
theorem C8_valid_iff (p : PayrollInputs) (d : DeductionInputs)
    (y : YTDInputs) :
    (validatePayrollInputs p d y).isValid = true ↔
      (0 < p.rate ∧ 0 ≤ p.straightTime ∧ 0 ≤ p.overtimeHalf ∧
        0 ≤ p.overtimeDouble ∧
        0 ≤ d.unionDuesPercent ∧ d.unionDuesPercent ≤ 100 ∧
        0 ≤ d.rrspPercent ∧ d.rrspPercent ≤ 100 ∧
        0 ≤ y.pensionableEarnings ∧ 0 ≤ y.insurableEarnings) := by
  simp only [validatePayrollInputs, List.length_append,
    apply_ite List.length, List.length_singleton, List.length_nil,
    beq_iff_eq, Nat.add_eq_zero, ite_eq_right_iff, one_ne_zero, imp_false,
    not_or, not_lt, not_le]
  tauto

/-- Claim C9: the net pay returned by `calculatePayroll` is exactly
`round2(gross.total − deductions.total)` of its own result. -/
theorem C9_net_pay_identity (p : PayrollInputs) (d : DeductionInputs)
    (y : YTDInputs) :
    (calculatePayroll p d y).net =
      round2 ((calculatePayroll p d y).gross.total -
        (calculatePayroll p d y).deductions.total) := rfl

/-- Claim C10: for a two-leg lift with positive weight and spacing and a
CoG offset beyond both half the spacing and 1 mm, the leg-A share and the
minimum tension are negative, the max/min tension quotient is negative,
and — because a negative quotient satisfies `<= 1.1` — the distribution
is still reported balanced. -/
theorem C10_offset_outside_picks (w c s : ℝ) (hw : 0 < w) (hs : 0 < s)
    (hc1 : s / 2 < c) (hc2 : 1 < c) :
    ((calculateLoadDistribution w 2 c s).legLoads).headD 0 < 0 ∧
    JNum.jlt (calculateLoadDistribution w 2 c s).minTension 0 ∧
    JNum.jlt ( LoadDistribution.imbalanceRatio
      (calculateLoadDistribution w 2 c s)) 0 ∧
    (calculateLoadDistribution w 2 c s).isBalanced := by
  have hcpos : (0:ℝ) < c := by linarith
  have habs : 1 < |c| := by rwa [abs_of_pos hcpos]
  have hg : (0:ℝ) < w * GRAVITY := mul_pos hw (by norm_num [GRAVITY])
  simp only [calculateLoadDistribution]
  rw [if_pos (show True ∧ (0:ℝ) < s ∧ 1 < |c| from ⟨trivial, hs, habs⟩)]
  have ht : (s / 2 + c) + (s / 2 - c) = s := by ring
  rw [ht]
  simp only [List.map_cons, List.map_nil, jsMax, jsMin, List.foldl,
    List.headD_cons]
  have hf0 : w * GRAVITY * ((s / 2 - c) / s) < 0 :=
    mul_neg_of_pos_of_neg hg (div_neg_of_neg_of_pos (by linarith) hs)
  have hf1 : 0 < w * GRAVITY * ((s / 2 + c) / s) :=
    mul_pos hg (div_pos (by linarith) hs)
  have hle := le_of_lt (lt_trans hf0 hf1)
  rw [max_eq_right hle, min_eq_left hle]
  simp only [JNum.div]
  rw [if_neg (ne_of_lt hf0)]
  have hq : w * GRAVITY * ((s / 2 + c) / s) /
      (w * GRAVITY * ((s / 2 - c) / s)) < 0 :=
    div_neg_of_pos_of_neg hf1 hf0
  simp only [JNum.jlt, JNum.jle]
  exact ⟨div_neg_of_neg_of_pos (by linarith) hs, hf0, hq, by linarith⟩

/-- Claim C10, witness: weight 1000 kg, spacing 1000 mm, CoG offset
600 mm (beyond the 500 mm half-spacing). -/
theorem C10_witness :
    (0:ℝ) < 1000 ∧ (1000:ℝ) / 2 < 600 ∧ (1:ℝ) < 600 ∧
    (((calculateLoadDistribution 1000 2 600 1000).legLoads).headD 0 < 0 ∧
      JNum.jlt (calculateLoadDistribution 1000 2 600 1000).minTension 0 ∧
      JNum.jlt ( LoadDistribution.imbalanceRatio
        (calculateLoadDistribution 1000 2 600 1000)) 0 ∧
      (calculateLoadDistribution 1000 2 600 1000).isBalanced) :=
  ⟨by norm_num, by norm_num, by norm_num,
    C10_offset_outside_picks 1000 600 1000 (by norm_num) (by norm_num)
      (by norm_num) (by norm_num)⟩

end Boilermaker
